import Mathlib

/-!
Shallow embedding of the T.LY URL-shortener Python client
(`src/tly_url_shortener/client.py`, `exceptions.py`, `cli.py`).

Conventions of the embedding:
* Python JSON values are the inductive `JVal`; JSON numbers are modelled
  as `Int` (the claims never involve floating point).
* A Python `dict` built from string-keyed assignments is an association
  list in insertion order; `dict.get` is first-match lookup.
* An HTTP response (the external `requests.Response` object) is the
  structure `PyResponse`; its field `json?` is the outcome of calling
  `response.json()` (`none` means the call raises `ValueError`, i.e. the
  body is not valid JSON), `text` is `response.text` and `content` is
  `response.content` (raw bytes, modelled as `List Nat`).
* `str.strip()`, `str.lower()`, `str.startswith` and substring
  containment `in` are the executable `pyStrip`, `pyLower`,
  `pyStartsWith` and `pyIn` below.
-/

namespace Tly

/-- A JSON value as produced by Python's `json.loads`. -/
inductive JVal where
  | null
  | bool (b : Bool)
  | num (n : Int)
  | str (s : String)
  | arr (xs : List JVal)
  | obj (fields : List (String × JVal))
deriving Repr

/-- A single-quote character as a string (kept out of string literals). -/
def sq : String := String.singleton (Char.ofNat 39)

/-- Separator-joined concatenation, as Python's `", ".join`. -/
def pyJoin (sep : String) : List String → String
  | [] => ""
  | [x] => x
  | x :: y :: xs => x ++ sep ++ pyJoin sep (y :: xs)

/-- Python's `repr()` applied to a value loaded from JSON: `None`,
`True`/`False`, decimal integers, single-quoted strings (faithful for
strings without quotes or escapes), bracketed lists and braced dicts
with `repr`-rendered elements. -/
def pyRepr : JVal → String
  | .null => "None"
  | .bool b => if b then "True" else "False"
  | .num n => toString n
  | .str s => sq ++ s ++ sq
  | .arr xs => "[" ++ pyJoin ", " (xs.attach.map (fun x => pyRepr x.1)) ++ "]"
  | .obj fs => "\x7b" ++
      pyJoin ", " (fs.attach.map (fun p => sq ++ p.1.1 ++ sq ++ ": " ++ pyRepr p.1.2)) ++
      "\x7d"
decreasing_by
  · simp_wf
    have h := List.sizeOf_lt_of_mem x.2
    omega
  · simp_wf
    have h := List.sizeOf_lt_of_mem p.2
    cases hp : p.1 with
    | mk k v => simp [hp] at h ⊢; omega

/-- Python's `str()` applied to a value loaded from JSON: the identity on
a top-level string (quotes appear only through `repr` inside containers),
and `repr` on everything else (`str` and `repr` agree on `None`,
booleans, integers, lists and dicts). -/
def pyStr : JVal → String
  | .str s => s
  | v => pyRepr v

/-- First-match lookup in a string-keyed association list of JSON values,
modelling Python's `dict.get` (dicts from JSON have unique keys). -/
def lookupJ : List (String × JVal) → String → Option JVal
  | [], _ => none
  | (k, v) :: rest, key => if k = key then some v else lookupJ rest key

/-- First-match lookup in a string-to-string association list. -/
def lookupS : List (String × String) → String → Option String
  | [], _ => none
  | (k, v) :: rest, key => if k = key then some v else lookupS rest key

/-- The whitespace characters stripped by Python's `str.strip()`:
space, tab, newline, carriage return, vertical tab, form feed. -/
def pyIsSpace (c : Char) : Bool :=
  c == Char.ofNat 32 || c == Char.ofNat 9 || c == Char.ofNat 10 ||
  c == Char.ofNat 13 || c == Char.ofNat 11 || c == Char.ofNat 12

/-- Python's `str.strip()`: drop whitespace from both ends. -/
def pyStrip (s : String) : String :=
  String.mk (((s.data.dropWhile pyIsSpace).reverse.dropWhile pyIsSpace).reverse)

/-- Python's `str.startswith(prefix)`. -/
def pyStartsWith (s pre : String) : Bool := pre.data.isPrefixOf s.data

/-- Python's `str.lower()` (faithful for ASCII). -/
def pyLower (s : String) : String := String.mk (s.data.map Char.toLower)

/-- Substring search over character lists. -/
def subList (needle : List Char) : List Char → Bool
  | [] => needle.isEmpty
  | c :: t => needle.isPrefixOf (c :: t) || subList needle t

/-- Python's substring test `needle in hay`. -/
def pyIn (needle hay : String) : Bool := subList needle.data hay.data

/-- The outcome of one HTTP exchange, as seen through the external
`requests.Response` object: status code, decoded body text, raw body
bytes, the `Content-Type` header if present, and the result of
`response.json()` (`none` when that call raises `ValueError`). -/
structure PyResponse where
  status_code : Nat
  text : String
  content : List Nat
  contentType : Option String
  json? : Option JVal

/-- `TlyAPIError` (`exceptions.py`): status code, extracted message, raw
response body text. -/
structure TlyAPIError where
  status_code : Nat
  message : String
  response_body : String
deriving Repr

/-- Whether a JSON value is a dict (Python `isinstance(v, dict)`). -/
def JVal.isObj : JVal → Bool
  | .obj _ => true
  | _ => false

/-- Whether a JSON value is a dict or a list (Python
`isinstance(v, (dict, list))`). -/
def JVal.isContainer : JVal → Bool
  | .obj _ => true
  | .arr _ => true
  | _ => false

/-- `payload.get(key)` when the result is a string, else `none`: the
`isinstance(payload.get(k), str)` test of `_extract_error_message`. -/
def strField (fields : List (String × JVal)) (key : String) : Option String :=
  match lookupJ fields key with
  | some (.str s) => some s
  | _ => none

/-- `TlyClient._extract_error_message` (client.py lines 77-90): try
`response.json()`; on failure return `response.text or "Request failed"`;
if the payload is a dict, prefer a string `message` field, then a string
`error` field, then `str(...)` of an `errors` field that is a dict or
list, else `str(payload)`. -/
def extract_error_message (r : PyResponse) : String :=
  match r.json? with
  | none => if r.text = "" then "Request failed" else r.text
  | some payload =>
    match payload with
    | .obj fields =>
      match strField fields "message" with
      | some m => m
      | none =>
        match strField fields "error" with
        | some e => e
        | none =>
          match lookupJ fields "errors" with
          | some (.obj errs) => pyStr (.obj errs)
          | some (.arr errs) => pyStr (.arr errs)
          | _ => pyStr (.obj fields)
    | _ => pyStr payload

/-- The normalized result of a successful call: raw bytes when binary was
expected, a structured JSON value (the empty dict for an empty body), or
the trimmed body text. -/
inductive ParsedResult where
  | bytes (b : List Nat)
  | jval (v : JVal)
  | text (s : String)
deriving Repr

/-- `TlyClient._parse_response`: binary flag returns `response.content`
unconditionally; otherwise strip the text, return `{}` when empty, decode
JSON when the lower-cased Content-Type contains `application/json` or the
stripped text starts with a brace or bracket (`none` here models the
uncaught `ValueError` from `response.json()`), else return the stripped
text. -/
def parse_response (r : PyResponse) (expect_binary : Bool) : Option ParsedResult :=
  if expect_binary then
    some (.bytes r.content)
  else
    let text := pyStrip r.text
    if text = "" then
      some (.jval (.obj []))
    else
      let content_type := pyLower (r.contentType.getD "")
      if pyIn "application/json" content_type
          || pyStartsWith text "\x7b" || pyStartsWith text "[" then
        (r.json?).map .jval
      else
        some (.text text)

/-- What `TlyClient.request` does with a response: raise a `TlyAPIError`,
return a normalized result, or let a JSON decode error escape from the
success path. -/
inductive ReqOutcome where
  | apiError (e : TlyAPIError)
  | ok (v : ParsedResult)
  | decodeError
deriving Repr

/-- Whether the outcome is a raised `TlyAPIError`. -/
def ReqOutcome.isApiError : ReqOutcome → Bool
  | .apiError _ => true
  | _ => false

/-- The response-handling tail of `TlyClient.request` (client.py lines
124-130): status ≥ 400 raises `TlyAPIError(status, extracted message,
response.text)`, otherwise the response is normalized by
`_parse_response`. -/
def request (r : PyResponse) (expect_binary : Bool) : ReqOutcome :=
  if 400 ≤ r.status_code then
    .apiError
      { status_code := r.status_code
        message := extract_error_message r
        response_body := r.text }
  else
    match parse_response r expect_binary with
    | some v => .ok v
    | none => .decodeError

/-- A Python calendar value usable as a date/timestamp parameter:
a `datetime.date`, a `datetime.datetime`, or an already-formatted string. -/
inductive DateParam where
  | pydate (year month day : Nat)
  | pydatetime (year month day hour minute second microsecond : Nat)
  | pystr (s : String)
deriving Repr

/-- Decimal rendering of a natural number left-padded with zeros to
width `w`, as in CPython's fixed-width date fields. -/
def padNum (w n : Nat) : String :=
  let s := toString n
  String.mk (List.replicate (w - s.length) (Char.ofNat 48)) ++ s

/-- `datetime.date.isoformat` / `datetime.datetime.isoformat` (external
standard library, modelled): `YYYY-MM-DD`, and for datetimes
`YYYY-MM-DDTHH:MM:SS` with `.ffffff` appended only when the microsecond
field is nonzero. -/
def isoformat : DateParam → String
  | .pydate y m d => padNum 4 y ++ "-" ++ padNum 2 m ++ "-" ++ padNum 2 d
  | .pydatetime y m d hh mm ss us =>
      padNum 4 y ++ "-" ++ padNum 2 m ++ "-" ++ padNum 2 d ++ "T" ++
      padNum 2 hh ++ ":" ++ padNum 2 mm ++ ":" ++ padNum 2 ss ++
      (if us = 0 then "" else "." ++ padNum 6 us)
  | .pystr s => s

/-- `_as_iso` (client.py lines 16-21): `None` passes through, a date or
datetime is converted with `.isoformat()`, a string is returned
unchanged. -/
def _as_iso : Option DateParam → Option String
  | none => none
  | some (.pydate y m d) => some (isoformat (.pydate y m d))
  | some (.pydatetime y m d hh mm ss us) =>
      some (isoformat (.pydatetime y m d hh mm ss us))
  | some (.pystr s) => some s

/-- An element of an identifier list parameter (`int | str` in Python). -/
inductive IdVal where
  | int (n : Int)
  | str (s : String)
deriving Repr, DecidableEq

/-- Python's `str()` on an `int | str` list element. -/
def IdVal.toStr : IdVal → String
  | .int n => toString n
  | .str s => s

/-- `_add_indexed_params` (client.py lines 24-32): a `None` or empty
sequence adds nothing; otherwise each element is appended as
`key[index] = str(value)` in enumeration order. The Python function
mutates `target`; the embedding returns the extended list. -/
def _add_indexed_params (target : List (String × String)) (key : String)
    (values : Option (List IdVal)) : List (String × String) :=
  match values with
  | none => target
  | some vs =>
    if vs = [] then target
    else target ++ vs.enum.map (fun p => (key ++ "[" ++ toString p.1 ++ "]", p.2.toStr))

/-- The query-parameter list built by `TlyClient.list_short_links`
(client.py lines 220-240): optional `search`, then bracket-indexed
`tag_ids`, `pixel_ids` and `domains`, then optional `start_date` and
`end_date` serialized with `_as_iso` (with `or ""` on the result). -/
def list_short_links_params (search : Option String)
    (tag_ids pixel_ids domains : Option (List IdVal))
    (start_date end_date : Option DateParam) : List (String × String) :=
  let params : List (String × String) :=
    match search with
    | some s => [("search", s)]
    | none => []
  let params := _add_indexed_params params "tag_ids" tag_ids
  let params := _add_indexed_params params "pixel_ids" pixel_ids
  let params := _add_indexed_params params "domains" domains
  let params :=
    match start_date with
    | some d => params ++ [("start_date", (_as_iso (some d)).getD "")]
    | none => params
  match end_date with
  | some d => params ++ [("end_date", (_as_iso (some d)).getD "")]
  | none => params

/-- A key-value entry present only when the optional value is supplied;
the building block of the `if x is not None: payload["k"] = x` pattern. -/
def optEntry (k : String) : Option JVal → List (String × JVal)
  | none => []
  | some v => [(k, v)]

/-- The JSON body assembled by `TlyClient.create_short_link` (client.py
lines 153-174): mandatory `long_url`, then `domain`,
`expire_at_datetime` (via `_as_iso`), `description`, `public_stats` and
`meta`, each included only when supplied. -/
def create_short_link_payload (long_url : String) (domain : Option String)
    (expire_at_datetime : Option DateParam) (description : Option String)
    (public_stats : Option Bool) (meta : Option JVal) : List (String × JVal) :=
  [("long_url", .str long_url)] ++
  optEntry "domain" (domain.map .str) ++
  optEntry "expire_at_datetime" ((_as_iso expire_at_datetime).map .str) ++
  optEntry "description" (description.map .str) ++
  optEntry "public_stats" (public_stats.map .bool) ++
  optEntry "meta" meta

/-- The JSON body assembled by `TlyClient.update_qr_code` (client.py
lines 403-427): mandatory `short_url`, then six optional string fields,
each included only when supplied. -/
def update_qr_code_payload (short_url : String)
    (image background_color corner_dots_color dots_color dots_style
      corner_style : Option String) : List (String × JVal) :=
  [("short_url", .str short_url)] ++
  optEntry "image" (image.map .str) ++
  optEntry "background_color" (background_color.map .str) ++
  optEntry "corner_dots_color" (corner_dots_color.map .str) ++
  optEntry "dots_color" (dots_color.map .str) ++
  optEntry "dots_style" (dots_style.map .str) ++
  optEntry "corner_style" (corner_style.map .str)

/-- The JSON encoding of an `int | str` identifier (as the `json` module
serializes the elements of `list(tags)` / `list(pixels)`). -/
def idValToJ : IdVal → JVal
  | .int n => .num n
  | .str s => .str s

/-- The JSON body assembled by `TlyClient.update_short_link` (client.py
lines 179-200): mandatory `short_url`, then `long_url`,
`expire_at_datetime` (via `_as_iso`), `description`, `public_stats` and
`meta`, each included only when supplied. -/
def update_short_link_payload (short_url : String) (long_url : Option String)
    (expire_at_datetime : Option DateParam) (description : Option String)
    (public_stats : Option Bool) (meta : Option JVal) : List (String × JVal) :=
  [("short_url", .str short_url)] ++
  optEntry "long_url" (long_url.map .str) ++
  optEntry "expire_at_datetime" ((_as_iso expire_at_datetime).map .str) ++
  optEntry "description" (description.map .str) ++
  optEntry "public_stats" (public_stats.map .bool) ++
  optEntry "meta" meta

/-- The JSON body assembled by `TlyClient.bulk_shorten_links` (client.py
lines 242-257): mandatory `links` (a sequence of mappings or a string,
kept as an arbitrary JSON value), then `domain`, `tags` and `pixels`
(the id lists sent as JSON arrays via `list(...)`), each included only
when supplied. -/
def bulk_shorten_links_payload (links : JVal) (domain : Option String)
    (tags pixels : Option (List IdVal)) : List (String × JVal) :=
  [("links", links)] ++
  optEntry "domain" (domain.map .str) ++
  optEntry "tags" (tags.map (fun ts => .arr (ts.map idValToJ))) ++
  optEntry "pixels" (pixels.map (fun ps => .arr (ps.map idValToJ)))

/-- The JSON body assembled by `TlyClient.bulk_update_links` (client.py
lines 259-271): mandatory `links`, then `tags` and `pixels`, each
included only when supplied. -/
def bulk_update_links_payload (links : JVal)
    (tags pixels : Option (List IdVal)) : List (String × JVal) :=
  [("links", links)] ++
  optEntry "tags" (tags.map (fun ts => .arr (ts.map idValToJ))) ++
  optEntry "pixels" (pixels.map (fun ps => .arr (ps.map idValToJ)))

/-- The JSON body assembled by `TlyClient.create_utm_preset` (client.py
lines 287-307): mandatory `name`, `source`, `medium`, `campaign`, then
`content` and `term`, each included only when supplied. -/
def create_utm_preset_payload (name source medium campaign : String)
    (content term : Option String) : List (String × JVal) :=
  [("name", .str name), ("source", .str source), ("medium", .str medium),
   ("campaign", .str campaign)] ++
  optEntry "content" (content.map .str) ++
  optEntry "term" (term.map .str)

/-- The JSON body assembled by `TlyClient.update_utm_preset` (client.py
lines 315-336): the same shape as `create_utm_preset` (the preset id
travels in the path, not the body). -/
def update_utm_preset_payload (name source medium campaign : String)
    (content term : Option String) : List (String × JVal) :=
  [("name", .str name), ("source", .str source), ("medium", .str medium),
   ("campaign", .str campaign)] ++
  optEntry "content" (content.map .str) ++
  optEntry "term" (term.map .str)

/-- In-place update of one key of a Python dict modelled as an
association list: an existing key keeps its position and gets the new
value, a new key is appended. -/
def dictSet (d : List (String × String)) (k v : String) : List (String × String) :=
  match d with
  | [] => [(k, v)]
  | (k0, v0) :: rest => if k0 = k then (k, v) :: rest else (k0, v0) :: dictSet rest k v

/-- Python's `dict.update`: apply `dictSet` for each pair of the update
mapping in order. -/
def dictUpdate (d upd : List (String × String)) : List (String × String) :=
  upd.foldl (fun acc p => dictSet acc p.1 p.2) d

/-- The default headers retained by `TlyClient.__init__` (client.py
lines 52-57). -/
def default_headers (api_token user_agent : String) : List (String × String) :=
  [("Authorization", "Bearer " ++ api_token),
   ("Accept", "application/json"),
   ("Content-Type", "application/json"),
   ("User-Agent", user_agent)]

/-- `TlyClient._build_headers` (client.py lines 68-72): copy the default
headers, then `update` with the per-call overrides if any. -/
def _build_headers (defaults : List (String × String))
    (headers : Option (List (String × String))) : List (String × String) :=
  match headers with
  | none => defaults
  | some hs => dictUpdate defaults hs

/-- The configuration retained by a successfully constructed
`TlyClient`: normalized base URL, timeout, and the default headers. -/
structure ClientConfig where
  base_url : String
  timeout : Int
  headers : List (String × String)
deriving Repr

/-- `TlyClient.__init__` (client.py lines 38-57): an empty token raises
`ValueError("api_token is required")` before anything else (in
particular before the transport session is created); otherwise the base
URL loses trailing slashes and the default headers are built once. -/
def TlyClient_init (api_token base_url : String) (timeout : Int)
    (user_agent : String) : Except String ClientConfig :=
  if api_token = "" then
    .error "api_token is required"
  else
    .ok { base_url := String.mk ((base_url.data.reverse.dropWhile (· == Char.ofNat 47)).reverse)
          timeout := timeout
          headers := default_headers api_token user_agent }

/-- The arguments `TlyClient.get_qr_code` passes to the generic request
executor. -/
structure RequestArgs where
  method : String
  path : String
  params : List (String × String)
  headers : Option (List (String × String))
  expect_binary : Bool
deriving Repr

/-- `TlyClient.get_qr_code` (client.py lines 383-401): query parameters
`short_url`, `output`, `format`; binary expectation and an
`Accept: image/png,*/*` override exactly when `output == "image"`. -/
def get_qr_code (short_url output fmt : String) : RequestArgs :=
  let expect_binary := output = "image"
  { method := "GET"
    path := "/api/v1/link/qr-code"
    params := [("short_url", short_url), ("output", output), ("format", fmt)]
    headers := if expect_binary then some [("Accept", "image/png,*/*")] else none
    expect_binary := expect_binary }

/-- The outcome of `json.loads` on the CLI `--data` string (external
standard library): a JSON value, or a `json.JSONDecodeError` carrying a
detail message. -/
inductive LoadsOutcome where
  | ok (v : JVal)
  | decodeErr (detail : String)
deriving Repr

/-- An error escaping `_parse_data`: the decode error from `json.loads`,
or the `ValueError` for a non-object payload. -/
inductive ParseDataError where
  | jsonDecode (detail : String)
  | valueError (msg : String)
deriving Repr

/-- `_parse_data` (cli.py lines 14-20): a missing or empty `--data`
yields the empty dict; otherwise the `json.loads` outcome (`loaded`) is
required to be a dict, else `ValueError("--data must be a JSON object")`
is raised. -/
def _parse_data (raw : Option String) (loaded : LoadsOutcome) :
    Except ParseDataError (List (String × JVal)) :=
  match raw with
  | none => .ok []
  | some r =>
    if r = "" then .ok []
    else
      match loaded with
      | .decodeErr detail => .error (.jsonDecode detail)
      | .ok (.obj fields) => .ok fields
      | .ok _ => .error (.valueError "--data must be a JSON object")

/-- What the CLI `call` branch of `main` (cli.py lines 108-121) does:
either exit with a code and a message on stderr before any client method
is invoked, or reflectively invoke the named method with the parsed
keyword payload (which is when a network request may happen). -/
inductive CallOutcome where
  | exited (code : Nat) (stderrMsg : String)
  | invoked (methodName : String) (payload : List (String × JVal))
deriving Repr

/-- The `call` subcommand of `main`: `_parse_data` errors are caught —
`json.JSONDecodeError` prints `Invalid JSON input: ...` and returns 2,
`ValueError` prints its message and returns 2 — and only a successful
parse reaches the reflective method invocation. -/
def cli_call (methodName : String) (data : Option String)
    (loaded : LoadsOutcome) : CallOutcome :=
  match _parse_data data loaded with
  | .error (.jsonDecode detail) => .exited 2 ("Invalid JSON input: " ++ detail)
  | .error (.valueError msg) => .exited 2 msg
  | .ok payload => .invoked methodName payload

/-- The bracket-indexed encoding of one identifier-list parameter:
element `i` becomes the pair `key[i] = str(value)`. -/
def indexedEntries (key : String) (vs : List IdVal) : List (String × String) :=
  vs.enum.map (fun p => (key ++ "[" ++ toString p.1 ++ "]", p.2.toStr))

/-- A 200 response declared as JSON whose body is not decodable: the
JSON branch of `_parse_response` is taken and `response.json()` raises. -/
def undecodableOk : PyResponse :=
  { status_code := 200
    text := "not json"
    content := []
    contentType := some "application/json"
    json? := none }

/-- A 404 response with an empty body. -/
def sampleNotFound : PyResponse :=
  { status_code := 404
    text := ""
    content := []
    contentType := none
    json? := none }

/-- A 200 response carrying a JSON array body. -/
def sampleJsonOk : PyResponse :=
  { status_code := 200
    text := " [1] "
    content := [32, 91, 49, 93, 32]
    contentType := none
    json? := some (.arr [.num 1]) }

/-- A 422 response whose JSON body carries a string `message` field. -/
def sampleMessageErr : PyResponse :=
  { status_code := 422
    text := "ignored"
    content := []
    contentType := some "application/json"
    json? := some (.obj [("message", .str "boom")]) }

/-- A 200 response carrying PNG-like bytes. -/
def samplePngOk : PyResponse :=
  { status_code := 200
    text := "png-bytes"
    content := [137, 80, 78, 71]
    contentType := some "image/png"
    json? := none }

theorem as_iso_some (v : DateParam) : _as_iso (some v) = some (isoformat v) := by
  cases v <;> rfl

theorem as_iso_none : _as_iso none = none := rfl

theorem lookupJ_append (xs ys : List (String × JVal)) (k : String) :
    lookupJ (xs ++ ys) k =
      match lookupJ xs k with
      | some v => some v
      | none => lookupJ ys k := by
  induction xs with
  | nil => simp [lookupJ]
  | cons p rest ih =>
    cases p with
    | mk a b =>
      by_cases h : a = k <;> simp [lookupJ, h, ih]

theorem lookupJ_optEntry (k0 k : String) (v : Option JVal) :
    lookupJ (optEntry k0 v) k = if k0 = k then v else none := by
  cases v <;> by_cases h : k0 = k <;> simp [optEntry, lookupJ, h]

theorem keys_optEntry (k0 k : String) (v : Option JVal) :
    k ∈ (optEntry k0 v).map Prod.fst ↔ k = k0 ∧ v.isSome := by
  cases v <;> simp [optEntry]

theorem mem_optEntry (k0 k : String) (x : JVal) (v : Option JVal) :
    (k, x) ∈ optEntry k0 v ↔ k = k0 ∧ v = some x := by
  cases v <;> simp [optEntry]
  exact fun _ => eq_comm

theorem add_indexed_params_eq (target : List (String × String)) (key : String)
    (vs : List IdVal) :
    _add_indexed_params target key (some vs) = target ++ indexedEntries key vs := by
  cases vs with
  | nil => simp [_add_indexed_params, indexedEntries]
  | cons x xs => simp [_add_indexed_params, indexedEntries]

/-- Claim C1 (refuted as stated): the claim asserts that for any status
below 400 no API error is raised AND a normalized result is returned;
but on a 200 response declared `application/json` whose body is not
decodable JSON, the success path calls `response.json()`, the decode
error propagates, and no normalized result is returned (and no
`TlyAPIError` is raised either). -/
theorem request_counterexample_no_result :
    undecodableOk.status_code < 400 ∧
      request undecodableOk false = ReqOutcome.decodeError := by
  exact ⟨by decide, rfl⟩

/-- Claim C1 (amended): `TlyClient.request` raises a `TlyAPIError` if and
only if the response status is at least 400; when it raises, the error's
`status_code` equals the HTTP status verbatim and its `response_body`
equals the raw response text, and no result is returned; for status below
400 no API error is raised and, whenever response normalization itself
succeeds (the JSON-decode branch does not fail), the normalized result is
returned. -/
theorem request_status_behavior (r : PyResponse) (eb : Bool) :
    ((request r eb).isApiError = true ↔ 400 ≤ r.status_code)
    ∧ (400 ≤ r.status_code →
        request r eb = .apiError
          { status_code := r.status_code
            message := extract_error_message r
            response_body := r.text })
    ∧ (r.status_code < 400 →
        ∀ v, parse_response r eb = some v → request r eb = .ok v) := by
  by_cases h : 400 ≤ r.status_code
  · refine ⟨?_, fun _ => ?_, fun hlt => absurd h (by omega)⟩
    · simp [request, h, ReqOutcome.isApiError]
    · simp [request, h]
  · refine ⟨?_, fun hge => absurd hge h, fun _ v hv => ?_⟩
    · cases hp : parse_response r eb <;>
        simp [request, h, hp, ReqOutcome.isApiError]
    · simp [request, h, hv]

/-- Witness for `request_status_behavior`: a 404 response with an empty
body raises `TlyAPIError(404, "Request failed", "")`. -/
theorem request_status_behavior_witness :
    400 ≤ sampleNotFound.status_code ∧
      request sampleNotFound false = .apiError
        { status_code := 404, message := "Request failed", response_body := "" } :=
  ⟨by decide, (request_status_behavior sampleNotFound false).2.1 (by decide)⟩

/-- Claim C2: for a response with status below 400 the normalized result
is: the raw body bytes when binary is expected (whatever the declared
content type); otherwise the empty dict when the stripped body text is
empty; otherwise the JSON-decoded value when the lower-cased declared
Content-Type contains `application/json` or the stripped text starts with
a brace or a bracket; otherwise the stripped text itself. -/
theorem parse_response_four_forms (r : PyResponse) (h : r.status_code < 400) :
    request r true = .ok (.bytes r.content)
    ∧ (pyStrip r.text = "" → request r false = .ok (.jval (.obj [])))
    ∧ (∀ v, pyStrip r.text ≠ "" →
        (pyIn "application/json" (pyLower (r.contentType.getD ""))
          || pyStartsWith (pyStrip r.text) "\x7b"
          || pyStartsWith (pyStrip r.text) "[") = true →
        r.json? = some v → request r false = .ok (.jval v))
    ∧ (pyStrip r.text ≠ "" →
        (pyIn "application/json" (pyLower (r.contentType.getD ""))
          || pyStartsWith (pyStrip r.text) "\x7b"
          || pyStartsWith (pyStrip r.text) "[") = false →
        request r false = .ok (.text (pyStrip r.text))) := by
  have hnot : ¬ 400 ≤ r.status_code := by omega
  refine ⟨?_, fun he => ?_, fun v hne hcond hj => ?_, fun hne hcond => ?_⟩
  · simp [request, hnot, parse_response]
  · simp [request, hnot, parse_response, he]
  · simp [request, hnot, parse_response, hne, hcond, hj]
  · simp [request, hnot, parse_response, hne, hcond]

/-- Witness for `parse_response_four_forms`: a 200 response with body
`" [1] "` is stripped to `"[1]"` and decoded as the JSON array `[1]`. -/
theorem parse_response_four_forms_witness :
    sampleJsonOk.status_code < 400 ∧
      request sampleJsonOk false = .ok (.jval (.arr [.num 1])) :=
  ⟨by decide,
    (parse_response_four_forms sampleJsonOk (by decide)).2.2.1
      (.arr [.num 1]) (by decide) (by decide) rfl⟩

/-- Claim C3: the error message for a status ≥ 400 response follows the
exact priority chain of `_extract_error_message`: raw text (or the
literal `"Request failed"` when empty) if JSON decoding fails; else, for
a mapping payload, a string `message` field, then a string `error`
field, then the stringification of an `errors` field that is a mapping
or sequence, then the stringification of the whole payload; and the
stringification of the whole payload for a non-mapping payload. -/
theorem extract_error_message_priority (r : PyResponse) :
    (r.json? = none → r.text ≠ "" → extract_error_message r = r.text)
    ∧ (r.json? = none → r.text = "" → extract_error_message r = "Request failed")
    ∧ (∀ fields m, r.json? = some (.obj fields) →
        lookupJ fields "message" = some (.str m) → extract_error_message r = m)
    ∧ (∀ fields e, r.json? = some (.obj fields) →
        strField fields "message" = none →
        lookupJ fields "error" = some (.str e) → extract_error_message r = e)
    ∧ (∀ fields v, r.json? = some (.obj fields) →
        strField fields "message" = none → strField fields "error" = none →
        lookupJ fields "errors" = some v → v.isContainer = true →
        extract_error_message r = pyStr v)
    ∧ (∀ fields, r.json? = some (.obj fields) →
        strField fields "message" = none → strField fields "error" = none →
        (∀ v, lookupJ fields "errors" = some v → v.isContainer = false) →
        extract_error_message r = pyStr (.obj fields))
    ∧ (∀ v, r.json? = some v → v.isObj = false →
        extract_error_message r = pyStr v) := by
  refine ⟨fun hn hne => ?_, fun hn he => ?_, fun fields m hj hm => ?_,
    fun fields e hj hm he => ?_, fun fields v hj hm he hv hc => ?_,
    fun fields hj hm he hv => ?_, fun v hj hv => ?_⟩
  · simp [extract_error_message, hn, hne]
  · simp [extract_error_message, hn, he]
  · have hm' : strField fields "message" = some m := by simp [strField, hm]
    simp [extract_error_message, hj, hm']
  · have he' : strField fields "error" = some e := by simp [strField, he]
    simp [extract_error_message, hj, hm, he']
  · cases v <;> simp_all [extract_error_message, JVal.isContainer]
  · cases hE : lookupJ fields "errors" with
    | none => simp [extract_error_message, hj, hm, he, hE]
    | some w =>
      have hw := hv w hE
      cases w <;> simp_all [extract_error_message, JVal.isContainer]
  · cases v <;> simp_all [extract_error_message, JVal.isObj]

/-- Witness for `extract_error_message_priority`: a 422 JSON body
`\x7b"message": "boom"\x7d` yields the message `boom`. -/
theorem extract_error_message_priority_witness :
    sampleMessageErr.json? = some (.obj [("message", .str "boom")]) ∧
      extract_error_message sampleMessageErr = "boom" :=
  ⟨rfl, (extract_error_message_priority sampleMessageErr).2.2.1
    [("message", .str "boom")] "boom" rfl rfl⟩

/-- Claim C4: `list_short_links` emits each supplied id-list element as a
separate bracket-indexed key `name[index]` in element order — never a
repeated key or a comma-joined value — and on the lists
`tag_ids=[1,2]`, `pixel_ids=[8]`, `domains=[3,4]` the emitted query is
exactly `tag_ids[0]=1, tag_ids[1]=2, pixel_ids[0]=8, domains[0]=3,
domains[1]=4`. -/
theorem list_short_links_bracket_indexed :
    (∀ (t p d : List IdVal),
      list_short_links_params none (some t) (some p) (some d) none none =
        indexedEntries "tag_ids" t ++ indexedEntries "pixel_ids" p ++
          indexedEntries "domains" d)
    ∧ list_short_links_params none (some [.int 1, .int 2]) (some [.int 8])
        (some [.int 3, .int 4]) none none =
      [("tag_ids[0]", "1"), ("tag_ids[1]", "2"), ("pixel_ids[0]", "8"),
       ("domains[0]", "3"), ("domains[1]", "4")] := by
  constructor
  · intro t p d
    simp [list_short_links_params, add_indexed_params_eq, List.append_assoc]
  · rfl

/-- Claim C10: for `list_short_links`, supplying an empty list for
`tag_ids`, `pixel_ids` or `domains` is the same as leaving the parameter
unset — the indexed-parameter encoder adds nothing for an absent or empty
sequence, so no key for that parameter appears in the query. -/
theorem empty_id_lists_omitted :
    (∀ (t : List (String × String)) (k : String),
      _add_indexed_params t k none = t)
    ∧ (∀ (t : List (String × String)) (k : String),
      _add_indexed_params t k (some []) = t)
    ∧ (∀ s p d sd ed,
      list_short_links_params s (some []) p d sd ed =
        list_short_links_params s none p d sd ed)
    ∧ (∀ s t d sd ed,
      list_short_links_params s t (some []) d sd ed =
        list_short_links_params s t none d sd ed)
    ∧ (∀ s t p sd ed,
      list_short_links_params s t p (some []) sd ed =
        list_short_links_params s t p none sd ed) := by
  refine ⟨fun t k => rfl, fun t k => rfl, ?_, ?_, ?_⟩ <;>
    intros <;> simp [list_short_links_params, _add_indexed_params]

/-- Claim C5: for every creation/update operation that takes optional
parameters — `create_short_link`, `update_qr_code`, `update_short_link`,
`bulk_shorten_links`, `bulk_update_links`, `create_utm_preset` and
`update_utm_preset` — an optional parameter left unset contributes no
key at all to the outgoing JSON body (no explicit null), and every
supplied parameter appears under its wire name with its supplied value
(dates serialized via `_as_iso`, id lists via `list(...)`). -/
theorem payloads_omit_unset_params
    (u : String) (dom : Option String) (exp : Option DateParam)
    (desc : Option String) (pub : Option Bool) (meta : Option JVal)
    (su : String) (img bg cdc dc ds cs : Option String)
    (su2 : String) (lu : Option String) (exp2 : Option DateParam)
    (desc2 : Option String) (pub2 : Option Bool) (meta2 : Option JVal)
    (links : JVal) (dom2 : Option String) (tags pixels : Option (List IdVal))
    (links2 : JVal) (tags2 pixels2 : Option (List IdVal))
    (nm src med cmp : String) (content term : Option String)
    (nm2 src2 med2 cmp2 : String) (content2 term2 : Option String) :
    (lookupJ (create_short_link_payload u dom exp desc pub meta) "long_url" =
      some (.str u))
    ∧ (dom = none →
        "domain" ∉ (create_short_link_payload u dom exp desc pub meta).map Prod.fst)
    ∧ (∀ v, dom = some v →
        lookupJ (create_short_link_payload u dom exp desc pub meta) "domain" =
          some (.str v))
    ∧ (exp = none →
        "expire_at_datetime" ∉
          (create_short_link_payload u dom exp desc pub meta).map Prod.fst)
    ∧ (∀ v, exp = some v →
        lookupJ (create_short_link_payload u dom exp desc pub meta)
          "expire_at_datetime" = some (.str (isoformat v)))
    ∧ (desc = none →
        "description" ∉ (create_short_link_payload u dom exp desc pub meta).map Prod.fst)
    ∧ (∀ v, desc = some v →
        lookupJ (create_short_link_payload u dom exp desc pub meta) "description" =
          some (.str v))
    ∧ (pub = none →
        "public_stats" ∉ (create_short_link_payload u dom exp desc pub meta).map Prod.fst)
    ∧ (∀ v, pub = some v →
        lookupJ (create_short_link_payload u dom exp desc pub meta) "public_stats" =
          some (.bool v))
    ∧ (meta = none →
        "meta" ∉ (create_short_link_payload u dom exp desc pub meta).map Prod.fst)
    ∧ (∀ v, meta = some v →
        lookupJ (create_short_link_payload u dom exp desc pub meta) "meta" = some v)
    ∧ (lookupJ (update_qr_code_payload su img bg cdc dc ds cs) "short_url" =
        some (.str su))
    ∧ (img = none →
        "image" ∉ (update_qr_code_payload su img bg cdc dc ds cs).map Prod.fst)
    ∧ (∀ v, img = some v →
        lookupJ (update_qr_code_payload su img bg cdc dc ds cs) "image" =
          some (.str v))
    ∧ (bg = none →
        "background_color" ∉ (update_qr_code_payload su img bg cdc dc ds cs).map Prod.fst)
    ∧ (∀ v, bg = some v →
        lookupJ (update_qr_code_payload su img bg cdc dc ds cs) "background_color" =
          some (.str v))
    ∧ (cdc = none →
        "corner_dots_color" ∉
          (update_qr_code_payload su img bg cdc dc ds cs).map Prod.fst)
    ∧ (∀ v, cdc = some v →
        lookupJ (update_qr_code_payload su img bg cdc dc ds cs) "corner_dots_color" =
          some (.str v))
    ∧ (dc = none →
        "dots_color" ∉ (update_qr_code_payload su img bg cdc dc ds cs).map Prod.fst)
    ∧ (∀ v, dc = some v →
        lookupJ (update_qr_code_payload su img bg cdc dc ds cs) "dots_color" =
          some (.str v))
    ∧ (ds = none →
        "dots_style" ∉ (update_qr_code_payload su img bg cdc dc ds cs).map Prod.fst)
    ∧ (∀ v, ds = some v →
        lookupJ (update_qr_code_payload su img bg cdc dc ds cs) "dots_style" =
          some (.str v))
    ∧ (cs = none →
        "corner_style" ∉ (update_qr_code_payload su img bg cdc dc ds cs).map Prod.fst)
    ∧ (∀ v, cs = some v →
        lookupJ (update_qr_code_payload su img bg cdc dc ds cs) "corner_style" =
          some (.str v))
    ∧ (lookupJ (update_short_link_payload su2 lu exp2 desc2 pub2 meta2) "short_url" =
        some (.str su2))
    ∧ (lu = none →
        "long_url" ∉ (update_short_link_payload su2 lu exp2 desc2 pub2 meta2).map Prod.fst)
    ∧ (∀ v, lu = some v →
        lookupJ (update_short_link_payload su2 lu exp2 desc2 pub2 meta2) "long_url" =
          some (.str v))
    ∧ (exp2 = none →
        "expire_at_datetime" ∉
          (update_short_link_payload su2 lu exp2 desc2 pub2 meta2).map Prod.fst)
    ∧ (∀ v, exp2 = some v →
        lookupJ (update_short_link_payload su2 lu exp2 desc2 pub2 meta2)
          "expire_at_datetime" = some (.str (isoformat v)))
    ∧ (desc2 = none →
        "description" ∉
          (update_short_link_payload su2 lu exp2 desc2 pub2 meta2).map Prod.fst)
    ∧ (∀ v, desc2 = some v →
        lookupJ (update_short_link_payload su2 lu exp2 desc2 pub2 meta2) "description" =
          some (.str v))
    ∧ (pub2 = none →
        "public_stats" ∉
          (update_short_link_payload su2 lu exp2 desc2 pub2 meta2).map Prod.fst)
    ∧ (∀ v, pub2 = some v →
        lookupJ (update_short_link_payload su2 lu exp2 desc2 pub2 meta2) "public_stats" =
          some (.bool v))
    ∧ (meta2 = none →
        "meta" ∉ (update_short_link_payload su2 lu exp2 desc2 pub2 meta2).map Prod.fst)
    ∧ (∀ v, meta2 = some v →
        lookupJ (update_short_link_payload su2 lu exp2 desc2 pub2 meta2) "meta" = some v)
    ∧ (lookupJ (bulk_shorten_links_payload links dom2 tags pixels) "links" = some links)
    ∧ (dom2 = none →
        "domain" ∉ (bulk_shorten_links_payload links dom2 tags pixels).map Prod.fst)
    ∧ (∀ v, dom2 = some v →
        lookupJ (bulk_shorten_links_payload links dom2 tags pixels) "domain" =
          some (.str v))
    ∧ (tags = none →
        "tags" ∉ (bulk_shorten_links_payload links dom2 tags pixels).map Prod.fst)
    ∧ (∀ ts, tags = some ts →
        lookupJ (bulk_shorten_links_payload links dom2 tags pixels) "tags" =
          some (.arr (ts.map idValToJ)))
    ∧ (pixels = none →
        "pixels" ∉ (bulk_shorten_links_payload links dom2 tags pixels).map Prod.fst)
    ∧ (∀ ps, pixels = some ps →
        lookupJ (bulk_shorten_links_payload links dom2 tags pixels) "pixels" =
          some (.arr (ps.map idValToJ)))
    ∧ (lookupJ (bulk_update_links_payload links2 tags2 pixels2) "links" = some links2)
    ∧ (tags2 = none →
        "tags" ∉ (bulk_update_links_payload links2 tags2 pixels2).map Prod.fst)
    ∧ (∀ ts, tags2 = some ts →
        lookupJ (bulk_update_links_payload links2 tags2 pixels2) "tags" =
          some (.arr (ts.map idValToJ)))
    ∧ (pixels2 = none →
        "pixels" ∉ (bulk_update_links_payload links2 tags2 pixels2).map Prod.fst)
    ∧ (∀ ps, pixels2 = some ps →
        lookupJ (bulk_update_links_payload links2 tags2 pixels2) "pixels" =
          some (.arr (ps.map idValToJ)))
    ∧ (lookupJ (create_utm_preset_payload nm src med cmp content term) "name" =
        some (.str nm))
    ∧ (lookupJ (create_utm_preset_payload nm src med cmp content term) "source" =
        some (.str src))
    ∧ (lookupJ (create_utm_preset_payload nm src med cmp content term) "medium" =
        some (.str med))
    ∧ (lookupJ (create_utm_preset_payload nm src med cmp content term) "campaign" =
        some (.str cmp))
    ∧ (content = none →
        "content" ∉ (create_utm_preset_payload nm src med cmp content term).map Prod.fst)
    ∧ (∀ v, content = some v →
        lookupJ (create_utm_preset_payload nm src med cmp content term) "content" =
          some (.str v))
    ∧ (term = none →
        "term" ∉ (create_utm_preset_payload nm src med cmp content term).map Prod.fst)
    ∧ (∀ v, term = some v →
        lookupJ (create_utm_preset_payload nm src med cmp content term) "term" =
          some (.str v))
    ∧ (lookupJ (update_utm_preset_payload nm2 src2 med2 cmp2 content2 term2) "name" =
        some (.str nm2))
    ∧ (lookupJ (update_utm_preset_payload nm2 src2 med2 cmp2 content2 term2) "source" =
        some (.str src2))
    ∧ (lookupJ (update_utm_preset_payload nm2 src2 med2 cmp2 content2 term2) "medium" =
        some (.str med2))
    ∧ (lookupJ (update_utm_preset_payload nm2 src2 med2 cmp2 content2 term2) "campaign" =
        some (.str cmp2))
    ∧ (content2 = none →
        "content" ∉
          (update_utm_preset_payload nm2 src2 med2 cmp2 content2 term2).map Prod.fst)
    ∧ (∀ v, content2 = some v →
        lookupJ (update_utm_preset_payload nm2 src2 med2 cmp2 content2 term2) "content" =
          some (.str v))
    ∧ (term2 = none →
        "term" ∉
          (update_utm_preset_payload nm2 src2 med2 cmp2 content2 term2).map Prod.fst)
    ∧ (∀ v, term2 = some v →
        lookupJ (update_utm_preset_payload nm2 src2 med2 cmp2 content2 term2) "term" =
          some (.str v)) := by
  repeat' apply And.intro
  all_goals intros
  all_goals subst_vars
  all_goals
    simp [create_short_link_payload, update_qr_code_payload,
      update_short_link_payload, bulk_shorten_links_payload,
      bulk_update_links_payload, create_utm_preset_payload,
      update_utm_preset_payload, lookupJ_append, lookupJ_optEntry,
      keys_optEntry, mem_optEntry, as_iso_some, as_iso_none, lookupJ]

/-- Witness for `payloads_omit_unset_params`: with only `description`
supplied, the body holds `long_url` and `description` and no `domain`
key. -/
theorem payloads_omit_unset_params_witness :
    "domain" ∉
      (create_short_link_payload "https://example.com" none none (some "d")
        none none).map Prod.fst ∧
    lookupJ (create_short_link_payload "https://example.com" none none (some "d")
        none none) "description" = some (.str "d") :=
  ⟨(payloads_omit_unset_params "https://example.com" none none (some "d") none none
      "s" none none none none none none
      "t" none none none none none (.arr []) none none none (.arr []) none none
      "n" "src" "m" "c" none none "n" "src" "m" "c" none none).2.1 rfl,
   (payloads_omit_unset_params "https://example.com" none none (some "d") none none
      "s" none none none none none none
      "t" none none none none none (.arr []) none none none (.arr []) none none
      "n" "src" "m" "c" none none "n" "src" "m" "c" none none).2.2.2.2.2.2.1 "d" rfl⟩

/-- Claim C6: a calendar-date/timestamp parameter is serialized to its
ISO textual form: a structured date or datetime maps to `isoformat`, a
pre-formatted string passes through unchanged, and serialization is
idempotent on already-serialized values. -/
theorem as_iso_canonical :
    (∀ s, _as_iso (some (.pystr s)) = some s)
    ∧ (∀ v, _as_iso (some v) = some (isoformat v))
    ∧ (∀ v s, _as_iso (some v) = some s → _as_iso (some (.pystr s)) = some s) :=
  ⟨fun _ => rfl, fun v => as_iso_some v, fun _ _ _ => rfl⟩

/-- Witness for `as_iso_canonical`: a `datetime.date(2026, 10, 12)`
serializes to `2026-10-12`, and re-serializing that string is the
identity. -/
theorem as_iso_canonical_witness :
    _as_iso (some (.pydate 2026 10 12)) = some "2026-10-12" ∧
      _as_iso (some (.pystr "2026-10-12")) = some "2026-10-12" :=
  ⟨by decide, as_iso_canonical.2.2 (.pydate 2026 10 12) "2026-10-12" (by decide)⟩

/-- Claim C7: `get_qr_code` with image output sets the binary flag and an
`Accept: image/png,*/*` override which wins over the default `Accept`
after the header merge (the other defaults, e.g. `Authorization`,
survive), and any success response then yields the raw body bytes; with
base64 output no header override is issued, the binary flag is unset, and
a success response follows the ordinary structured-JSON normalization. -/
theorem get_qr_code_output_modes (su fmt token ua : String) :
    ((get_qr_code su "image" fmt).expect_binary = true)
    ∧ ((get_qr_code su "image" fmt).headers = some [("Accept", "image/png,*/*")])
    ∧ (lookupS (_build_headers (default_headers token ua)
        (get_qr_code su "image" fmt).headers) "Accept" = some "image/png,*/*")
    ∧ (lookupS (_build_headers (default_headers token ua)
        (get_qr_code su "image" fmt).headers) "Authorization" =
        some ("Bearer " ++ token))
    ∧ (∀ r, r.status_code < 400 →
        request r (get_qr_code su "image" fmt).expect_binary = .ok (.bytes r.content))
    ∧ ((get_qr_code su "base64" fmt).expect_binary = false)
    ∧ ((get_qr_code su "base64" fmt).headers = none)
    ∧ (_build_headers (default_headers token ua)
        (get_qr_code su "base64" fmt).headers = default_headers token ua)
    ∧ (∀ r v, r.status_code < 400 → parse_response r false = some (.jval v) →
        request r (get_qr_code su "base64" fmt).expect_binary = .ok (.jval v)) := by
  refine ⟨rfl, ?_, ?_, ?_, fun r h => ?_, ?_, ?_, rfl, fun r v h hp => ?_⟩
  · simp [get_qr_code]
  · simp [get_qr_code, _build_headers, dictUpdate, dictSet, default_headers, lookupS]
  · simp [get_qr_code, _build_headers, dictUpdate, dictSet, default_headers, lookupS]
  · have hnot : ¬ 400 ≤ r.status_code := by omega
    simp [get_qr_code, request, hnot, parse_response]
  · simp [get_qr_code]
  · simp [get_qr_code]
  · have hnot : ¬ 400 ≤ r.status_code := by omega
    simp [get_qr_code, request, hnot, hp]

/-- Witness for `get_qr_code_output_modes`: a 200 response carrying PNG
bytes comes back verbatim as bytes in image mode. -/
theorem get_qr_code_output_modes_witness :
    samplePngOk.status_code < 400 ∧
      request samplePngOk (get_qr_code "t.ly/abc" "image" "png").expect_binary =
        .ok (.bytes [137, 80, 78, 71]) :=
  ⟨by decide,
    (get_qr_code_output_modes "t.ly/abc" "png" "tok" "ua").2.2.2.2.1
      samplePngOk (by decide)⟩

/-- Claim C8: constructing a client with an empty credential fails with
the configuration error `api_token is required` before any transport is
built; with a non-empty credential construction succeeds and the retained
default headers carry `Authorization: Bearer <credential>`. -/
theorem client_init_validation (token base : String) (timeout : Int) (ua : String) :
    (token = "" → TlyClient_init token base timeout ua = .error "api_token is required")
    ∧ (token ≠ "" → ∃ cfg, TlyClient_init token base timeout ua = .ok cfg ∧
        lookupS cfg.headers "Authorization" = some ("Bearer " ++ token)) := by
  constructor
  · intro h
    simp [TlyClient_init, h]
  · intro h
    exact ⟨{ base_url := String.mk ((base.data.reverse.dropWhile (· == Char.ofNat 47)).reverse)
             timeout := timeout
             headers := default_headers token ua },
           by simp [TlyClient_init, h],
           by simp [lookupS, default_headers]⟩

/-- Witness for `client_init_validation`: the token `tok` is accepted and
its bearer header is retained. -/
theorem client_init_validation_witness :
    ("tok" : String) ≠ "" ∧
      ∃ cfg, TlyClient_init "tok" "https://api.t.ly" 30 "ua" = .ok cfg ∧
        lookupS cfg.headers "Authorization" = some ("Bearer " ++ "tok") :=
  ⟨by decide, (client_init_validation "tok" "https://api.t.ly" 30 "ua").2 (by decide)⟩

/-- Claim C9: a CLI `call` whose `--data` argument decodes to a non-object
JSON value is rejected with exit code 2 and the message
`--data must be a JSON object` on stderr, without reaching the reflective
method invocation (so no network request is issued). -/
theorem cli_call_rejects_non_object (name raw : String) (v : JVal)
    (h1 : raw ≠ "") (h2 : v.isObj = false) :
    cli_call name (some raw) (.ok v) = .exited 2 "--data must be a JSON object" := by
  cases v <;> simp_all [cli_call, _parse_data, JVal.isObj]

/-- Witness for `cli_call_rejects_non_object`: `--data "[]"` is rejected
with exit code 2. -/
theorem cli_call_rejects_non_object_witness :
    ("[]" : String) ≠ "" ∧
      cli_call "create_tag" (some "[]") (.ok (.arr [])) =
        .exited 2 "--data must be a JSON object" :=
  ⟨by decide, cli_call_rejects_non_object "create_tag" "[]" (.arr []) (by decide) rfl⟩

end Tly
